import Mathlib

/-!
Verification of the MetaForge CTF header/phase parser
(`src/metaforge/parsers/ctf_parser.py`) against its natural-language
specification.

The Python source is shallowly embedded below.  Python semantics are
modelled as follows:

* the line-producing collaborator (`file_line_generator`) is modelled as a
  `List String` of the remaining lines, consumed front to back;
* every Python exception that aborts the parse (`ValueError` from
  `int`/`float`/`IntEnum` construction, `IndexError` from out-of-range
  indexing, `StopIteration` from an exhausted line source) is modelled as
  `Option` failure (`none`) — the spec groups all of these under the
  single abstract kind `FormatError`;
* Python `float` literal strings are modelled over `ℚ` (the CTF format
  only carries finite decimal literals, so rational semantics are exact);
* Python `str.strip()` is modelled by `pyStrip` (whitespace on both ends);
* Python `str.replace(',', '.')`, a single-character replacement, is
  modelled as the character-wise map that sends `','` to `'.'`;
* Python `s.startswith(p)` is modelled by `pyStartsWith`, the character
  list of `p` being a prefix of that of `s`;
* Python `s.split(sep)` for the one-character separators `'\t'` and `';'`
  is modelled by `pySplit` (no collapsing, empty pieces kept, an empty
  string splits to `[""]`), Python `sep.join(xs)` by `pyJoin`, and the
  slice `s[n:]` by `pyDrop`.
-/

/-- Python whitespace test used by `str.strip()` (ASCII fragment). -/
def pyIsSpace (c : Char) : Bool :=
  c = ' ' || c = '\t' || c = '\n' || c = '\r' || c = '\x0b' || c = '\x0c'

/-- Python `text.strip()`: remove leading and trailing whitespace. -/
def pyStrip (text : String) : String :=
  ⟨((text.data.dropWhile pyIsSpace).reverse.dropWhile pyIsSpace).reverse⟩

/-- Split a character list at every occurrence of the separator, keeping
empty pieces; the empty list yields one empty piece. -/
def pySplitChars (sep : Char) : List Char → List (List Char)
  | [] => [[]]
  | c :: rest =>
    if c = sep then
      [] :: pySplitChars sep rest
    else
      match pySplitChars sep rest with
      | [] => [[c]]
      | piece :: pieces => (c :: piece) :: pieces

/-- Python `text.split(sep)` for a one-character separator. -/
def pySplit (sep : Char) (text : String) : List String :=
  (pySplitChars sep text.data).map String.mk

/-- Python `sep.join(xs)`. -/
def pyJoin (sep : String) : List String → String
  | [] => ""
  | [x] => x
  | x :: xs => x ++ sep ++ pyJoin sep xs

/-- Python slice `text[n:]` (by code point). -/
def pyDrop (text : String) (n : Nat) : String :=
  ⟨text.data.drop n⟩

/-- Python `s.startswith(p)`. -/
def pyStartsWith (s p : String) : Bool :=
  p.data.isPrefixOf s.data

/-- Value of a run of decimal digits. -/
def digitsVal (ds : List Char) : Nat :=
  ds.foldl (fun n c => 10 * n + (c.toNat - 48)) 0

/-- Python `int(text)`: strip surrounding whitespace, optional sign, then a
nonempty run of decimal digits; anything else raises `ValueError` (`none`). -/
def pyInt (text : String) : Option Int :=
  let cs := (pyStrip text).data
  let signAndDigits : Int × List Char :=
    match cs with
    | '+' :: rest => (1, rest)
    | '-' :: rest => (-1, rest)
    | rest => (1, rest)
  let ds := signAndDigits.2
  if ds ≠ [] ∧ ds.all Char.isDigit then
    some (signAndDigits.1 * (digitsVal ds : Nat))
  else
    none

/-- Rational value `sgn * mant * 10 ^ e` assembled from integer parts. -/
def ratOfParts (sgn : Int) (mant : Nat) (e : Int) : ℚ :=
  mkRat (sgn * (mant : Int) * (10 : Int) ^ e.toNat) ((10 : Nat) ^ (-e).toNat)

/-- Mantissa of a float literal: `digits [. digits]`, at least one digit in
total; yields the digit value and the number of fractional digits. -/
def pyFloatMantissa (m : List Char) : Option (Nat × Nat) :=
  match pySplitChars '.' m with
  | [i] =>
    if i ≠ [] ∧ i.all Char.isDigit then some (digitsVal i, 0) else none
  | [i, f] =>
    if (i ++ f) ≠ [] ∧ (i ++ f).all Char.isDigit then
      some (digitsVal (i ++ f), f.length)
    else none
  | _ => none

/-- Exponent of a float literal: optional sign then nonempty digits. -/
def pyFloatExp (e : List Char) : Option Int :=
  match e with
  | '+' :: rest =>
    if rest ≠ [] ∧ rest.all Char.isDigit then some (digitsVal rest : Int) else none
  | '-' :: rest =>
    if rest ≠ [] ∧ rest.all Char.isDigit then some (-(digitsVal rest : Int)) else none
  | rest =>
    if rest ≠ [] ∧ rest.all Char.isDigit then some (digitsVal rest : Int) else none

/-- Python `float(text)` on finite decimal literals, with exact rational
semantics: optional surrounding whitespace, optional sign, a mantissa
`digits [. digits]` (at least one digit overall, either part may be empty),
and an optional exponent `e`/`E` with optional sign and nonempty digits.
Any other shape — in particular a comma decimal separator — raises
`ValueError` (`none`).  The non-finite spellings (`inf`, `nan`) never occur
in a CTF header and are outside the model. -/
def pyFloat (text : String) : Option ℚ :=
  let cs := (pyStrip text).data
  let signAndRest : Int × List Char :=
    match cs with
    | '+' :: rest => (1, rest)
    | '-' :: rest => (-1, rest)
    | rest => (1, rest)
  match pySplitChars 'e' (signAndRest.2.map Char.toLower) with
  | [m] =>
    (pyFloatMantissa m).map fun md => ratOfParts signAndRest.1 md.1 (-(md.2 : Int))
  | [m, e] =>
    match pyFloatMantissa m, pyFloatExp e with
    | some md, some x => some (ratOfParts signAndRest.1 md.1 (x - (md.2 : Int)))
    | _, _ => none
  | _ => none

/-- Python `int(f)` on a float value: truncation toward zero. -/
def pyTrunc (q : ℚ) : Int :=
  if q < 0 then -((-q).floor) else q.floor

/-! ### Data model -/

/-- Value carried by one metadata entry: string, integer, float, 3-float
triplet, or absent (`None` in the source). -/
inductive MetaValue where
  | vstr (s : String)
  | vint (n : Int)
  | vfloat (q : ℚ)
  | vtriplet (t : ℚ × ℚ × ℚ)
  | vnone
deriving DecidableEq, Repr

/-- Modelled from the spec: the metadata-value constructor collaborator
(`MetaForgeMetadata`, imported from `metaforge.parsers.metaforgeparser`),
"a metadata-value constructor taking (key, value, optional annotation,
optional unit)"; the optional fields default to the empty string, as in the
source's two- and three-argument call sites. -/
structure MetaForgeMetadata where
  key : String
  value : MetaValue
  annotations : String := ""
  units : String := ""
deriving DecidableEq, Repr

/-- Modelled from the spec: unit-string constant `MICRONS_UNITS` from the
external `metaforge.common.parser_units` table. -/
def MICRONS_UNITS : String := "micrometers"

/-- Modelled from the spec: unit-string constant `DEGREES_UNITS` from the
external `metaforge.common.parser_units` table. -/
def DEGREES_UNITS : String := "degrees"

/-- Modelled from the spec: unit-string constant `ANGSTROM_UNITS` from the
external `metaforge.common.parser_units` table. -/
def ANGSTROM_UNITS : String := "angstroms"

/-! ### Constants of `ctf_parser.py` -/

def CTF_DELIMITER : Char := '\t'

def CTF_CHANNEL_TEXT_FILE : String := "Channel Text File"
def CTF_COLON_CHANNEL_TEXT_FILE : String := ":Channel Text File"
def CTF_PRJ : String := "Prj"
def CTF_PHASES : String := "Phases"

def CTF_LONG_TEXT : String := "Euler angles refer to Sample Coordinate system (CS0)!"
def CTF_MAG : String := "Mag"
def CTF_COVERAGE : String := "Coverage"
def CTF_DEVICE : String := "Device"
def CTF_KV : String := "KV"
def CTF_TILT_ANGLE : String := "TiltAngle"
def CTF_TILT_AXIS : String := "TiltAxis"

def CTF_AUTHOR : String := "Author"
def CTF_JOB_MODE : String := "JobMode"
def CTF_X_CELLS : String := "XCells"
def CTF_Y_CELLS : String := "YCells"
def CTF_Z_CELLS : String := "ZCells"
def CTF_X_STEP : String := "XStep"
def CTF_Y_STEP : String := "YStep"
def CTF_Z_STEP : String := "ZStep"
def CTF_ACQ_E1 : String := "AcqE1"
def CTF_ACQ_E2 : String := "AcqE2"
def CTF_ACQ_E3 : String := "AcqE3"
def CTF_EULER : String := "Euler"

/-- `euro_to_us_dec_string(text)`: `text.replace(',', '.')` — a
single-character replacement, i.e. the character-wise map sending `','`
to `'.'`. -/
def euro_to_us_dec_string (text : String) : String :=
  ⟨text.data.map fun c => if c = ',' then '.' else c⟩

/-- `parse_float(text)`: `float(euro_to_us_dec_string(text))`. -/
def parse_float (text : String) : Option ℚ :=
  pyFloat (euro_to_us_dec_string text)

/-- `CTF_HEADER_PARSE_MAP`: keyword → coercion function.  `str` never
fails; `int` and `parse_float` fail on an unparseable payload. -/
def CTF_HEADER_PARSE_MAP (keyword : String) : Option (String → Option MetaValue) :=
  if keyword = CTF_AUTHOR ∨ keyword = CTF_JOB_MODE ∨ keyword = CTF_EULER then
    some fun text => some (.vstr text)
  else if keyword = CTF_X_CELLS ∨ keyword = CTF_Y_CELLS ∨ keyword = CTF_Z_CELLS then
    some fun text => (pyInt text).map .vint
  else if keyword = CTF_X_STEP ∨ keyword = CTF_Y_STEP ∨ keyword = CTF_Z_STEP
      ∨ keyword = CTF_ACQ_E1 ∨ keyword = CTF_ACQ_E2 ∨ keyword = CTF_ACQ_E3 then
    some fun text => (parse_float text).map .vfloat
  else
    none

/-- `CTF_HEADER_UNITS_MAP.get(keyword, '')`. -/
def CTF_HEADER_UNITS_MAP (keyword : String) : String :=
  if keyword = CTF_X_STEP ∨ keyword = CTF_Y_STEP ∨ keyword = CTF_Z_STEP then
    MICRONS_UNITS
  else
    ""

/-- The `LaueGroup` `IntEnum`: a closed variant over twelve members backed
by the integer codes 1–12. -/
inductive LaueGroup where
  | TRICLINIC
  | MONOCLINIC
  | ORTHORHOMBIC
  | TETRAGONAL_LOW
  | TETRAGONAL_HIGH
  | TRIGONAL_LOW
  | TRIGONAL_HIGH
  | HEXAGONAL_LOW
  | HEXAGONAL_HIGH
  | CUBIC_LOW
  | CUBIC_HIGH
  | UNKNOWN_SYMMETRY
deriving DecidableEq, Repr

/-- Integer code backing each `LaueGroup` member. -/
def LaueGroup.code : LaueGroup → Int
  | .TRICLINIC => 1
  | .MONOCLINIC => 2
  | .ORTHORHOMBIC => 3
  | .TETRAGONAL_LOW => 4
  | .TETRAGONAL_HIGH => 5
  | .TRIGONAL_LOW => 6
  | .TRIGONAL_HIGH => 7
  | .HEXAGONAL_LOW => 8
  | .HEXAGONAL_HIGH => 9
  | .CUBIC_LOW => 10
  | .CUBIC_HIGH => 11
  | .UNKNOWN_SYMMETRY => 12

/-- Python `LaueGroup(n)`: `IntEnum` construction succeeds exactly on the
backing codes 1–12 and raises `ValueError` (`none`) on any other integer —
there is no fallback to `UNKNOWN_SYMMETRY`. -/
def LaueGroup.ofCode (n : Int) : Option LaueGroup :=
  if n = 1 then some .TRICLINIC
  else if n = 2 then some .MONOCLINIC
  else if n = 3 then some .ORTHORHOMBIC
  else if n = 4 then some .TETRAGONAL_LOW
  else if n = 5 then some .TETRAGONAL_HIGH
  else if n = 6 then some .TRIGONAL_LOW
  else if n = 7 then some .TRIGONAL_HIGH
  else if n = 8 then some .HEXAGONAL_LOW
  else if n = 9 then some .HEXAGONAL_HIGH
  else if n = 10 then some .CUBIC_LOW
  else if n = 11 then some .CUBIC_HIGH
  else if n = 12 then some .UNKNOWN_SYMMETRY
  else none

/-- Python `member.name` for `LaueGroup`. -/
def LaueGroup.pyName : LaueGroup → String
  | .TRICLINIC => "TRICLINIC"
  | .MONOCLINIC => "MONOCLINIC"
  | .ORTHORHOMBIC => "ORTHORHOMBIC"
  | .TETRAGONAL_LOW => "TETRAGONAL_LOW"
  | .TETRAGONAL_HIGH => "TETRAGONAL_HIGH"
  | .TRIGONAL_LOW => "TRIGONAL_LOW"
  | .TRIGONAL_HIGH => "TRIGONAL_HIGH"
  | .HEXAGONAL_LOW => "HEXAGONAL_LOW"
  | .HEXAGONAL_HIGH => "HEXAGONAL_HIGH"
  | .CUBIC_LOW => "CUBIC_LOW"
  | .CUBIC_HIGH => "CUBIC_HIGH"
  | .UNKNOWN_SYMMETRY => "UNKNOWN_SYMMETRY"

/-- The `CtfPhase` dataclass.  In the source the row-parsing loop always
constructs it with all nine arguments, so the dataclass defaults are never
exercised there; they are reproduced for completeness (the Python default
for `group` is the plain integer `0`, never a valid `LaueGroup` member —
here the field holds the parsed member). -/
structure CtfPhase where
  index : Int
  lattice_constants : ℚ × ℚ × ℚ
  lattice_angles : ℚ × ℚ × ℚ
  name : String
  group : LaueGroup
  space_group : Int
  comment : String
  internal1 : String
  internal2 : String
deriving DecidableEq, Repr

/-- The `CtfHeader` aggregate.  NOTE: the constructor annotates `phases`
as `Dict[int, CtfPhase]`, but `_parse_header` assigns it the *list*
returned by `parse_phases`; the runtime value is a list, and the consumer
(`parse_header`) iterates it as one, so the field is embedded as a list. -/
structure CtfHeader where
  phases : List CtfPhase := []
  entries : List MetaForgeMetadata := []
  unknown_entries : List MetaForgeMetadata := []
deriving DecidableEq, Repr

/-! ### Parsing routines of `CtfParser` -/

/-- `parse_float_triplet(text)`: split the comma-normalized text on `';'`
and parse the first three fields as floats; a missing field is an
`IndexError`, an unparseable one a `ValueError` (both `none`). -/
def parse_float_triplet (text : String) : Option (ℚ × ℚ × ℚ) :=
  let tokens := pySplit ';' (euro_to_us_dec_string text)
  tokens[0]?.bind fun f0 => (pyFloat f0).bind fun a =>
  tokens[1]?.bind fun f1 => (pyFloat f1).bind fun b =>
  tokens[2]?.bind fun f2 => (pyFloat f2).bind fun c =>
  some (a, b, c)

/-- Body of the `parse_phases` loop for one row: strip the line, split on
tabs, parse the four mandatory fields, then fill the optional fields
according to the total field count (5 fields, 8 fields, or defaults). -/
def parsePhaseRow (idx : Int) (rawLine : String) : Option CtfPhase :=
  let line := pyStrip rawLine
  let tokens := pySplit '\t' line
  tokens[0]?.bind fun t0 => (parse_float_triplet (pyStrip t0)).bind fun lattice_constants =>
  tokens[1]?.bind fun t1 => (parse_float_triplet (pyStrip t1)).bind fun lattice_angles =>
  tokens[2]?.bind fun t2 =>
  tokens[3]?.bind fun t3 => (pyInt t3).bind fun groupCode =>
  (LaueGroup.ofCode groupCode).bind fun group =>
  let name := pyStrip t2
  if tokens.length = 5 then
    tokens[4]?.bind fun t4 =>
    some ⟨idx, lattice_constants, lattice_angles, name, group, 0, pyStrip t4, "", ""⟩
  else if tokens.length = 8 then
    tokens[4]?.bind fun t4 => (pyInt (pyStrip t4)).bind fun space_group =>
    tokens[5]?.bind fun t5 =>
    tokens[6]?.bind fun t6 =>
    tokens[7]?.bind fun t7 =>
    some ⟨idx, lattice_constants, lattice_angles, name, group, space_group,
          pyStrip t7, pyStrip t5, pyStrip t6⟩
  else
    some ⟨idx, lattice_constants, lattice_angles, name, group, 0, "", "", ""⟩

/-- Loop of `parse_phases`: `k` rows remain, `i` rows already consumed
(so the next row gets index `i + 1`); returns the phases together with the
lines left on the shared cursor. -/
def parsePhasesGo : List String → Nat → Int → Option (List CtfPhase × List String)
  | lines, 0, _ => some ([], lines)
  | [], _ + 1, _ => none
  | line :: rest, k + 1, i =>
    (parsePhaseRow (i + 1) line).bind fun phase =>
    (parsePhasesGo rest k (i + 1)).bind fun result =>
    some (phase :: result.1, result.2)

/-- `parse_phases(file, num_phases)`: consume one line per phase from the
shared cursor (`range(num_phases)` is empty for a non-positive count). -/
def parse_phases (lines : List String) (num_phases : Int) :
    Option (List CtfPhase × List String) :=
  parsePhasesGo lines num_phases.toNat 0

/-- `parse_ctf_long_text(tokens)`: read the tab tokens of the long-text
instrument line at fixed zero-based offsets 2, 4, 6, 8, 10, 12 as
`Mag`/`Coverage`/`Device` (ints), `KV` (float truncated to int),
`TiltAngle`/`TiltAxis` (floats) — plain `int`/`float`, without comma
normalization — and emit the six entries in that order. -/
def parse_ctf_long_text (tokens : List String) : Option (List MetaForgeMetadata) :=
  tokens[2]?.bind fun t2 => (pyInt (pyStrip t2)).bind fun mag =>
  tokens[4]?.bind fun t4 => (pyInt (pyStrip t4)).bind fun coverage =>
  tokens[6]?.bind fun t6 => (pyInt (pyStrip t6)).bind fun device =>
  tokens[8]?.bind fun t8 => (pyFloat (pyStrip t8)).bind fun kvFloat =>
  tokens[10]?.bind fun t10 => (pyFloat (pyStrip t10)).bind fun tilt_angle =>
  tokens[12]?.bind fun t12 => (pyFloat (pyStrip t12)).bind fun tilt_axis =>
  let kv := pyTrunc kvFloat
  some [
    ⟨"SOURCE/" ++ CTF_MAG, .vint mag, "", ""⟩,
    ⟨"SOURCE/" ++ CTF_COVERAGE, .vint coverage, "", ""⟩,
    ⟨"SOURCE/" ++ CTF_DEVICE, .vint device, "", ""⟩,
    ⟨"SOURCE/" ++ CTF_KV, .vint kv, "", ""⟩,
    ⟨"SOURCE/" ++ CTF_TILT_ANGLE, .vfloat tilt_angle, "", ""⟩,
    ⟨"SOURCE/" ++ CTF_TILT_AXIS, .vfloat tilt_axis, "", ""⟩]

/-- Loop body of `_parse_header`, one iteration per line, carrying the
header built so far.  The branch order reproduces the source: signature
line, `Prj` line, long-text line and `Phases` marker are matched by string
prefix of the whole line; only then is the first tab token looked up in the
dispatch table, and an unrecognized keyword is routed to
`unknown_entries`.  The `Phases` branch consumes the following rows from
the shared cursor and stops the header pass (`break`). -/
def ctfHeaderLoop : List String → CtfHeader → Option CtfHeader
  | [], header => some header
  | rawLine :: rest, header =>
    let line := pyStrip rawLine
    let tokens := pySplit CTF_DELIMITER line
    let keyword := tokens.headD ""
    if pyStartsWith line CTF_CHANNEL_TEXT_FILE || pyStartsWith line CTF_COLON_CHANNEL_TEXT_FILE then
      ctfHeaderLoop rest header
    else if pyStartsWith line CTF_PRJ then
      ctfHeaderLoop rest { header with
        entries := header.entries ++
          [⟨"SOURCE/" ++ CTF_PRJ, .vstr (pyDrop line (CTF_PRJ.length + 1)), "", ""⟩] }
    else if pyStartsWith line CTF_LONG_TEXT then
      match parse_ctf_long_text tokens with
      | none => none
      | some entries => ctfHeaderLoop rest { header with entries := header.entries ++ entries }
    else if pyStartsWith line CTF_PHASES then
      match tokens[1]? with
      | none => none
      | some countText =>
        match pyInt countText with
        | none => none
        | some phase_num =>
          match parse_phases rest phase_num with
          | none => none
          | some (phases, _) => some { header with phases := phases }
    else
      match CTF_HEADER_PARSE_MAP keyword with
      | some coerce =>
        let units := CTF_HEADER_UNITS_MAP keyword
        if tokens.length > 1 then
          match coerce (pyJoin "\t" tokens.tail) with
          | none => none
          | some value =>
            ctfHeaderLoop rest { header with
              entries := header.entries ++ [⟨"SOURCE/" ++ keyword, value, "", units⟩] }
        else
          ctfHeaderLoop rest { header with
            entries := header.entries ++ [⟨"SOURCE/" ++ keyword, .vnone, "", units⟩] }
      | none =>
        ctfHeaderLoop rest { header with
          unknown_entries := header.unknown_entries ++
            [⟨"SOURCE/" ++ keyword, .vstr (pyJoin "\t" tokens.tail), "", ""⟩] }

/-- `CtfParser._parse_header(filepath)`: run the classifier loop over the
lines of the file, starting from an empty header. -/
def _parse_header (lines : List String) : Option CtfHeader :=
  ctfHeaderLoop lines {}

/-- Eight per-phase entries appended by the `parse_header` loop for one
phase, with the shared annotation string
`"Phase {index}, {CTF_LAUE_CLASS_MAP.get(index, 'Unknown')}"`.  The
external lookup `CTF_LAUE_CLASS_MAP` (from `metaforge.common.hkl_constants`)
is passed in as a function. -/
def phaseEntries (laueClassMap : Int → Option String) (phase : CtfPhase) :
    List MetaForgeMetadata :=
  let annotations :=
    "Phase " ++ toString phase.index ++ ", " ++ (laueClassMap phase.index).getD "Unknown"
  [⟨"SOURCE/Phases/Phase " ++ toString phase.index ++ "/LaueGroup",
    .vstr phase.group.pyName, annotations, ""⟩,
   ⟨"SOURCE/Phases/Phase " ++ toString phase.index ++ "/Internal1",
    .vstr phase.internal1, annotations, ""⟩,
   ⟨"SOURCE/Phases/Phase " ++ toString phase.index ++ "/Internal2",
    .vstr phase.internal2, annotations, ""⟩,
   ⟨"SOURCE/Phases/Phase " ++ toString phase.index ++ "/LatticeAngles",
    .vtriplet phase.lattice_angles, annotations, DEGREES_UNITS⟩,
   ⟨"SOURCE/Phases/Phase " ++ toString phase.index ++ "/LatticeConstants",
    .vtriplet phase.lattice_constants, annotations, ANGSTROM_UNITS⟩,
   ⟨"SOURCE/Phases/Phase " ++ toString phase.index ++ "/Name",
    .vstr phase.name, annotations, ""⟩,
   ⟨"SOURCE/Phases/Phase " ++ toString phase.index ++ "/SpaceGroup",
    .vint phase.space_group, annotations, ""⟩,
   ⟨"SOURCE/Phases/Phase " ++ toString phase.index ++ "/Comment",
    .vstr phase.comment, annotations, ""⟩]

/-- `CtfParser.parse_header(filepath)`: build the header, then extend its
`entries` with the eight per-phase entries of each phase in turn.  The
phase loop is the source's mutating `entries.append` loop, rendered as a
fold; `unknown_entries` is not consulted. -/
def parse_header (laueClassMap : Int → Option String) (lines : List String) :
    Option (List MetaForgeMetadata) :=
  match _parse_header lines with
  | none => none
  | some header =>
    some (header.phases.foldl (fun acc phase => acc ++ phaseEntries laueClassMap phase)
      header.entries)

/-! ### Helper lemmas -/

theorem string_mk_append (l₁ l₂ : List Char) : (⟨l₁⟩ ++ ⟨l₂⟩ : String) = ⟨l₁ ++ l₂⟩ := rfl

theorem euro_append (a b : String) :
    euro_to_us_dec_string (a ++ b) =
      euro_to_us_dec_string a ++ euro_to_us_dec_string b := by
  simp only [euro_to_us_dec_string, string_mk_append, String.data_append, List.map_append]

/-- Writing a decimal separator as a comma or as a period produces the same
comma-normalized text. -/
theorem euro_comma_dot (a b : String) :
    euro_to_us_dec_string (a ++ "," ++ b) = euro_to_us_dec_string (a ++ "." ++ b) := by
  rw [euro_append, euro_append, euro_append, euro_append]
  rfl

theorem foldl_append_join {α β : Type} (f : α → List β) :
    ∀ (l : List α) (init : List β),
      l.foldl (fun acc x => acc ++ f x) init = init ++ (l.map f).flatten
  | [], init => by simp
  | x :: xs, init => by
    simp [foldl_append_join f xs, List.append_assoc]

/-- Two candidate literal prefixes that disagree within their common length
cannot both be prefixes of the same line. -/
theorem pyStartsWith_conflict {p q : String} (n : Nat)
    (hnp : n ≤ p.data.length) (hnq : n ≤ q.data.length)
    (hne : p.data.take n ≠ q.data.take n) (s : String)
    (hp : pyStartsWith s p = true) : pyStartsWith s q = false := by
  unfold pyStartsWith at hp ⊢
  cases hq : List.isPrefixOf q.data s.data
  · rfl
  · exfalso
    rw [ List.isPrefixOf_iff_prefix] at hp hq
    obtain ⟨t, ht⟩ := hp
    obtain ⟨u, hu⟩ := hq
    refine hne ?_
    calc p.data.take n = (p.data ++ t).take n := (List.take_append_of_le_length hnp).symm
    _ = s.data.take n := by rw [ht]
    _ = (q.data ++ u).take n := by rw [hu]
    _ = q.data.take n := List.take_append_of_le_length hnq

/-- A line that begins with `"Prj"` cannot begin with either spelling of the
signature banner. -/
theorem startsWith_prj_not_sig (s : String) (h : pyStartsWith s CTF_PRJ = true) :
    pyStartsWith s CTF_CHANNEL_TEXT_FILE = false ∧
      pyStartsWith s CTF_COLON_CHANNEL_TEXT_FILE = false :=
  ⟨pyStartsWith_conflict 1 (by decide) (by decide) (by decide) s h,
   pyStartsWith_conflict 1 (by decide) (by decide) (by decide) s h⟩

/-- A line that begins with the long-text literal cannot begin with the
signature banner or with `"Prj"`. -/
theorem startsWith_long_not_others (s : String) (h : pyStartsWith s CTF_LONG_TEXT = true) :
    pyStartsWith s CTF_CHANNEL_TEXT_FILE = false ∧
      pyStartsWith s CTF_COLON_CHANNEL_TEXT_FILE = false ∧
      pyStartsWith s CTF_PRJ = false :=
  ⟨pyStartsWith_conflict 1 (by decide) (by decide) (by decide) s h,
   pyStartsWith_conflict 1 (by decide) (by decide) (by decide) s h,
   pyStartsWith_conflict 1 (by decide) (by decide) (by decide) s h⟩

/-- A line that begins with `"Phases"` matches none of the earlier prefix
rules of the classifier. -/
theorem startsWith_phases_not_others (s : String) (h : pyStartsWith s CTF_PHASES = true) :
    pyStartsWith s CTF_CHANNEL_TEXT_FILE = false ∧
      pyStartsWith s CTF_COLON_CHANNEL_TEXT_FILE = false ∧
      pyStartsWith s CTF_PRJ = false ∧
      pyStartsWith s CTF_LONG_TEXT = false :=
  ⟨pyStartsWith_conflict 1 (by decide) (by decide) (by decide) s h,
   pyStartsWith_conflict 1 (by decide) (by decide) (by decide) s h,
   pyStartsWith_conflict 2 (by decide) (by decide) (by decide) s h,
   pyStartsWith_conflict 1 (by decide) (by decide) (by decide) s h⟩

/-- Classifier step on a line that begins with `"Prj"`: the project rule
fires (whatever the first tab token is) and the pass continues. -/
theorem ctfHeaderLoop_prj (raw : String) (rest : List String) (header : CtfHeader)
    (hp : pyStartsWith (pyStrip raw) CTF_PRJ = true) :
    ctfHeaderLoop (raw :: rest) header =
      ctfHeaderLoop rest { header with entries := header.entries ++
        [⟨"SOURCE/" ++ CTF_PRJ, .vstr (pyDrop (pyStrip raw) (CTF_PRJ.length + 1)), "", ""⟩] } := by
  obtain ⟨h1, h2⟩ := startsWith_prj_not_sig _ hp
  simp [ctfHeaderLoop, h1, h2, hp]

/-- Classifier step on a line that begins with the long-text literal, when
the decoder succeeds: its six entries are appended and the pass continues. -/
theorem ctfHeaderLoop_long_text (raw : String) (rest : List String) (header : CtfHeader)
    (hp : pyStartsWith (pyStrip raw) CTF_LONG_TEXT = true)
    (es : List MetaForgeMetadata)
    (hparse : parse_ctf_long_text (pySplit CTF_DELIMITER (pyStrip raw)) = some es) :
    ctfHeaderLoop (raw :: rest) header =
      ctfHeaderLoop rest { header with entries := header.entries ++ es } := by
  obtain ⟨h1, h2, h3⟩ := startsWith_long_not_others _ hp
  simp [ctfHeaderLoop, h1, h2, h3, hp, hparse]

/-- Classifier step on a line that begins with `"Phases"` (whatever the
first tab token is), when the marker count parses and the declared number
of rows is consumed successfully: the phase-count-marker rule fires, the
rows are taken from the shared cursor, and the header pass ends with the
parsed phases stored — no later line is examined as a header line. -/
theorem ctfHeaderLoop_phases_some (raw : String) (rest : List String) (header : CtfHeader)
    (countText : String) (phase_num : Int) (phases : List CtfPhase) (remaining : List String)
    (hp : pyStartsWith (pyStrip raw) CTF_PHASES = true)
    (ht : (pySplit CTF_DELIMITER (pyStrip raw))[1]? = some countText)
    (hn : pyInt countText = some phase_num)
    (hps : parse_phases rest phase_num = some (phases, remaining)) :
    ctfHeaderLoop (raw :: rest) header = some { header with phases := phases } := by
  obtain ⟨h1, h2, h3, h4⟩ := startsWith_phases_not_others _ hp
  simp [ctfHeaderLoop, h1, h2, h3, h4, hp, ht, hn, hps]

/-- Classifier step on a line that begins with `"Phases"` when the marker
carries no parseable count: the whole parse fails. -/
theorem ctfHeaderLoop_phases_bad_count (raw : String) (rest : List String) (header : CtfHeader)
    (hp : pyStartsWith (pyStrip raw) CTF_PHASES = true)
    (hn : ((pySplit CTF_DELIMITER (pyStrip raw))[1]?).bind pyInt = none) :
    ctfHeaderLoop (raw :: rest) header = none := by
  obtain ⟨h1, h2, h3, h4⟩ := startsWith_phases_not_others _ hp
  cases ht : (pySplit CTF_DELIMITER (pyStrip raw))[1]? with
  | none => simp [ctfHeaderLoop, h1, h2, h3, h4, hp, ht]
  | some countText =>
    rw [ht] at hn
    simp only [Option.some_bind] at hn
    simp [ctfHeaderLoop, h1, h2, h3, h4, hp, ht, hn]

/-- Classifier step on a line that begins with `"Phases"` when the phase
table itself fails to parse: the whole parse fails. -/
theorem ctfHeaderLoop_phases_bad_table (raw : String) (rest : List String) (header : CtfHeader)
    (countText : String) (phase_num : Int)
    (hp : pyStartsWith (pyStrip raw) CTF_PHASES = true)
    (ht : (pySplit CTF_DELIMITER (pyStrip raw))[1]? = some countText)
    (hn : pyInt countText = some phase_num)
    (hps : parse_phases rest phase_num = none) :
    ctfHeaderLoop (raw :: rest) header = none := by
  obtain ⟨h1, h2, h3, h4⟩ := startsWith_phases_not_others _ hp
  simp [ctfHeaderLoop, h1, h2, h3, h4, hp, ht, hn, hps]

/-- Classifier step on a line that matches none of the four prefix rules
and whose first tab token is not in the dispatch table: the line is
appended to `unknown_entries` and the pass continues. -/
theorem ctfHeaderLoop_unknown (raw : String) (rest : List String) (header : CtfHeader)
    (h1 : pyStartsWith (pyStrip raw) CTF_CHANNEL_TEXT_FILE = false)
    (h2 : pyStartsWith (pyStrip raw) CTF_COLON_CHANNEL_TEXT_FILE = false)
    (h3 : pyStartsWith (pyStrip raw) CTF_PRJ = false)
    (h4 : pyStartsWith (pyStrip raw) CTF_LONG_TEXT = false)
    (h5 : pyStartsWith (pyStrip raw) CTF_PHASES = false)
    (h6 : CTF_HEADER_PARSE_MAP ((pySplit CTF_DELIMITER (pyStrip raw)).headD "") = none) :
    ctfHeaderLoop (raw :: rest) header =
      ctfHeaderLoop rest { header with unknown_entries := header.unknown_entries ++
        [⟨"SOURCE/" ++ (pySplit CTF_DELIMITER (pyStrip raw)).headD "",
          .vstr (pyJoin "\t" (pySplit CTF_DELIMITER (pyStrip raw)).tail), "", ""⟩] } := by
  simp only [List.headD_eq_head?_getD] at h6
  simp [ctfHeaderLoop, h1, h2, h3, h4, h5, h6]

/-- A successfully parsed phase row carries exactly the index it was
called with. -/
theorem parsePhaseRow_index (idx : Int) (line : String) (p : CtfPhase)
    (h : parsePhaseRow idx line = some p) : p.index = idx := by
  rw [parsePhaseRow] at h
  simp only [Option.bind_eq_some, Option.some.injEq] at h
  obtain ⟨t0, h0, lc, hlc, t1, h1, la, hla, t2, h2, t3, h3, n, hn, g, hg, h⟩ := h
  split at h
  · simp only [Option.bind_eq_some, Option.some.injEq] at h
    obtain ⟨t4, h4, h⟩ := h
    subst h
    rfl
  · split at h
    · simp only [Option.bind_eq_some, Option.some.injEq] at h
      obtain ⟨t4, h4, sg, hsg, t5, h5, t6, h6, t7, h7, h⟩ := h
      subst h
      rfl
    · simp only [Option.some.injEq] at h
      subst h
      rfl

/-- Invariant of the `parse_phases` loop: starting with `i` rows already
consumed, a successful run of `k` more rows yields exactly `k` phases, the
`j`-th of which carries index `i + j + 1`. -/
theorem parsePhasesGo_spec (k : Nat) :
    ∀ (lines : List String) (i : Int) (ps : List CtfPhase) (rest : List String),
      parsePhasesGo lines k i = some (ps, rest) →
      ps.length = k ∧ ∀ (j : Nat) (p : CtfPhase), ps[j]? = some p → p.index = i + j + 1 := by
  induction k with
  | zero =>
    intro lines i ps rest h
    simp only [parsePhasesGo, Option.some.injEq, Prod.mk.injEq] at h
    obtain ⟨rfl, rfl⟩ := h
    refine ⟨rfl, ?_⟩
    intro j p hp
    simp at hp
  | succ k ih =>
    intro lines i ps rest h
    cases lines with
    | nil => simp [parsePhasesGo] at h
    | cons line rest' =>
      simp only [parsePhasesGo, Option.bind_eq_some, Option.some.injEq, Prod.mk.injEq] at h
      obtain ⟨phase, hrow, result, hgo, hps, hrest⟩ := h
      obtain ⟨phs, rem⟩ := result
      subst hps
      obtain ⟨hlen, hidx⟩ := ih rest' (i + 1) phs rem hgo
      refine ⟨by simp [hlen], ?_⟩
      intro j p hp
      cases j with
      | zero =>
        simp only [List.getElem?_cons_zero, Option.some.injEq] at hp
        subst hp
        have := parsePhaseRow_index _ _ _ hrow
        simpa using this
      | succ j' =>
        simp only [List.getElem?_cons_succ] at hp
        have := hidx j' p hp
        push_cast at this ⊢
        omega

/-- A long-text line with fewer than 13 tab tokens always fails to
decode. -/
theorem parse_ctf_long_text_short (tokens : List String) (h : tokens.length < 13) :
    parse_ctf_long_text tokens = none := by
  cases hres : parse_ctf_long_text tokens with
  | none => rfl
  | some es =>
    exfalso
    rw [parse_ctf_long_text] at hres
    simp only [Option.bind_eq_some, Option.some.injEq] at hres
    obtain ⟨t2, h2, mag, hmag, t4, h4, cov, hcov, t6, h6, dev, hdev, t8, h8, kvf, hkvf,
      t10, h10, ta, hta, t12, h12, tx, htx, hes⟩ := hres
    obtain ⟨hlt, -⟩ := List.getElem?_eq_some.1 h12
    omega

/-! ### Claim C1 -/

/-- Claim C1, counterexample: on the long-text instrument line the numeric
tokens are parsed by plain `int`/`float` *without* comma normalization, so
a TiltAngle written `"1,5"` aborts the decode while `"1.5"` succeeds — the
two spellings do not parse to the same float there, contrary to the claim
that normalization precedes every numeric parse. -/
theorem c1_long_text_comma_fails :
    parse_ctf_long_text ["Euler angles refer to Sample Coordinate system (CS0)!", "Mag", "30",
      "Coverage", "2", "Device", "1", "KV", "20", "TiltAngle", "1,5", "TiltAxis", "0"] = none ∧
    parse_ctf_long_text ["Euler angles refer to Sample Coordinate system (CS0)!", "Mag", "30",
      "Coverage", "2", "Device", "1", "KV", "20", "TiltAngle", "1.5", "TiltAxis", "0"] =
      some [⟨"SOURCE/Mag", .vint 30, "", ""⟩,
        ⟨"SOURCE/Coverage", .vint 2, "", ""⟩,
        ⟨"SOURCE/Device", .vint 1, "", ""⟩,
        ⟨"SOURCE/KV", .vint 20, "", ""⟩,
        ⟨"SOURCE/TiltAngle", .vfloat (mkRat 3 2), "", ""⟩,
        ⟨"SOURCE/TiltAxis", .vfloat (mkRat 0 1), "", ""⟩] :=
  ⟨by decide, by decide⟩

/-- Claim C1 (amended): for every numeric parse routed through
`parse_float` or `parse_float_triplet` — i.e. every float-bearing field of
the keyword dispatch table and every triplet member of a phase row — a
value written with a comma decimal separator and the same value written
with a period parse to the same float (e.g. `"1,5"` yields 1.5), because
the comma-to-period normalization is applied before the parse.  The
float-valued tokens of the long-text instrument line (KV, TiltAngle,
TiltAxis) are *not* normalized: they go through plain `float`, which
rejects a comma. -/
theorem c1_locale_normalization_scope :
    (∀ a b : String, parse_float (a ++ "," ++ b) = parse_float (a ++ "." ++ b)) ∧
    (∀ a b : String, parse_float_triplet (a ++ "," ++ b) = parse_float_triplet (a ++ "." ++ b)) ∧
    parse_float "1,5" = some (mkRat 3 2) ∧
    pyFloat "1,5" = none := by
  refine ⟨?_, ?_, by decide, by decide⟩
  · intro a b
    unfold parse_float
    rw [euro_comma_dot]
  · intro a b
    unfold parse_float_triplet
    rw [euro_comma_dot]

/-! ### Claim C2 -/

/-- Modelled from the spec: "phases: mapping from 1-based index to Phase",
"N Phase records ..., each keyed by its index" — indexing the stored
collection at a phase's index must return that same phase. -/
def phasesKeyedByIndex (phases : List CtfPhase) : Prop :=
  ∀ p ∈ phases, phases[p.index.toNat]? = some p

/-- Phase record produced by the row `0;0;0<TAB>0;0;0<TAB>A<TAB>1`. -/
def phaseA : CtfPhase :=
  ⟨1, (mkRat 0 1, mkRat 0 1, mkRat 0 1), (mkRat 0 1, mkRat 0 1, mkRat 0 1),
   "A", .TRICLINIC, 0, "", "", ""⟩

/-- Claim C2, counterexample: a successfully parsed one-phase table stores
a *list* whose only record has index 1, but the collection keyed at 1
holds nothing (the record sits at position 0) — `Header.phases` is not a
mapping keyed by the 1-based phase index. -/
theorem c2_phases_not_keyed_by_index :
    parse_phases ["0;0;0\t0;0;0\tA\t1"] 1 = some ([phaseA], []) ∧
    ¬ phasesKeyedByIndex [phaseA] :=
  ⟨by decide, fun hkeyed => absurd (hkeyed phaseA (by decide)) (by decide)⟩

/-- Claim C2 (amended): after a successful parse of a phase-count marker
declaring N phases, `Header.phases` holds exactly N Phase records as a
sequence in table order — the record at 0-based position j carries index
j + 1 (so the collection is positional, not keyed by the 1-based index) —
and the classifier stores the `parse_phases` result into `Header.phases`
verbatim. -/
theorem c2_phase_count_and_storage :
    (∀ (lines : List String) (n : Nat) (ps : List CtfPhase) (rest : List String),
        parse_phases lines (n : Int) = some (ps, rest) →
        ps.length = n ∧ ∀ j : Nat, j < n → ∃ p, ps[j]? = some p ∧ p.index = (j : Int) + 1) ∧
    (∀ (raw : String) (rest : List String) (header : CtfHeader) (countText : String)
        (phase_num : Int) (phases : List CtfPhase) (remaining : List String),
        pyStartsWith (pyStrip raw) CTF_PHASES = true →
        (pySplit CTF_DELIMITER (pyStrip raw))[1]? = some countText →
        pyInt countText = some phase_num →
        parse_phases rest phase_num = some (phases, remaining) →
        ctfHeaderLoop (raw :: rest) header = some { header with phases := phases }) := by
  constructor
  · intro lines n ps rest h
    unfold parse_phases at h
    rw [Int.toNat_ofNat] at h
    obtain ⟨hlen, hidx⟩ := parsePhasesGo_spec n lines 0 ps rest h
    refine ⟨hlen, ?_⟩
    intro j hj
    obtain ⟨p, hp⟩ : ∃ p, ps[j]? = some p := by
      rw [List.getElem?_eq_getElem (by omega)]
      exact ⟨_, rfl⟩
    refine ⟨p, hp, ?_⟩
    have := hidx j p hp
    omega
  · intro raw rest header countText phase_num phases remaining hp ht hn hps
    exact ctfHeaderLoop_phases_some raw rest header countText phase_num phases remaining
      hp ht hn hps

/-- Witness for C2: the amended claim evaluated on a concrete one-row
table, and the storage step evaluated on a concrete `Phases` marker. -/
theorem c2_phase_count_and_storage_witness :
    ([phaseA].length = 1 ∧
      ∀ j : Nat, j < 1 → ∃ p, [phaseA][j]? = some p ∧ p.index = (j : Int) + 1) ∧
    ctfHeaderLoop ["Phases\t1", "0;0;0\t0;0;0\tA\t1"] {} = some { phases := [phaseA] } :=
  ⟨c2_phase_count_and_storage.1 ["0;0;0\t0;0;0\tA\t1"] 1 [phaseA] [] (by decide),
   c2_phase_count_and_storage.2 "Phases\t1" ["0;0;0\t0;0;0\tA\t1"] {} "1" 1 [phaseA] []
     (by decide) (by decide) (by decide) (by decide)⟩

/-! ### Claim C3 -/

/-- Claim C3: for every phase row whose four mandatory fields parse, a row
with exactly 5 total fields yields comment = field 4 (stripped),
space_group = 0 and empty internals; a row with exactly 8 total fields
yields space_group = integer of field 4, internal1 = field 5,
internal2 = field 6, comment = field 7; a row with any other total field
count keeps all four optional values at their defaults and still parses
successfully — it is never an error. -/
theorem c3_phase_row_shapes :
    (∀ (idx : Int) (line t0 t1 t2 t3 t4 : String) (lc la : ℚ × ℚ × ℚ)
        (n : Int) (g : LaueGroup),
        (pySplit '\t' (pyStrip line))[0]? = some t0 →
        parse_float_triplet (pyStrip t0) = some lc →
        (pySplit '\t' (pyStrip line))[1]? = some t1 →
        parse_float_triplet (pyStrip t1) = some la →
        (pySplit '\t' (pyStrip line))[2]? = some t2 →
        (pySplit '\t' (pyStrip line))[3]? = some t3 →
        pyInt t3 = some n → LaueGroup.ofCode n = some g →
        (pySplit '\t' (pyStrip line)).length = 5 →
        (pySplit '\t' (pyStrip line))[4]? = some t4 →
        parsePhaseRow idx line =
          some ⟨idx, lc, la, pyStrip t2, g, 0, pyStrip t4, "", ""⟩) ∧
    (∀ (idx : Int) (line t0 t1 t2 t3 t4 t5 t6 t7 : String) (lc la : ℚ × ℚ × ℚ)
        (n sg : Int) (g : LaueGroup),
        (pySplit '\t' (pyStrip line))[0]? = some t0 →
        parse_float_triplet (pyStrip t0) = some lc →
        (pySplit '\t' (pyStrip line))[1]? = some t1 →
        parse_float_triplet (pyStrip t1) = some la →
        (pySplit '\t' (pyStrip line))[2]? = some t2 →
        (pySplit '\t' (pyStrip line))[3]? = some t3 →
        pyInt t3 = some n → LaueGroup.ofCode n = some g →
        (pySplit '\t' (pyStrip line)).length = 8 →
        (pySplit '\t' (pyStrip line))[4]? = some t4 → pyInt (pyStrip t4) = some sg →
        (pySplit '\t' (pyStrip line))[5]? = some t5 →
        (pySplit '\t' (pyStrip line))[6]? = some t6 →
        (pySplit '\t' (pyStrip line))[7]? = some t7 →
        parsePhaseRow idx line =
          some ⟨idx, lc, la, pyStrip t2, g, sg, pyStrip t7, pyStrip t5, pyStrip t6⟩) ∧
    (∀ (idx : Int) (line t0 t1 t2 t3 : String) (lc la : ℚ × ℚ × ℚ)
        (n : Int) (g : LaueGroup),
        (pySplit '\t' (pyStrip line))[0]? = some t0 →
        parse_float_triplet (pyStrip t0) = some lc →
        (pySplit '\t' (pyStrip line))[1]? = some t1 →
        parse_float_triplet (pyStrip t1) = some la →
        (pySplit '\t' (pyStrip line))[2]? = some t2 →
        (pySplit '\t' (pyStrip line))[3]? = some t3 →
        pyInt t3 = some n → LaueGroup.ofCode n = some g →
        (pySplit '\t' (pyStrip line)).length ≠ 5 →
        (pySplit '\t' (pyStrip line)).length ≠ 8 →
        parsePhaseRow idx line =
          some ⟨idx, lc, la, pyStrip t2, g, 0, "", "", ""⟩) := by
  refine ⟨?_, ?_, ?_⟩
  · intro idx line t0 t1 t2 t3 t4 lc la n g h0 hlc h1 hla h2 h3 hn hg hlen h4
    simp [parsePhaseRow, h0, hlc, h1, hla, h2, h3, hn, hg, hlen, h4]
  · intro idx line t0 t1 t2 t3 t4 t5 t6 t7 lc la n sg g h0 hlc h1 hla h2 h3 hn hg hlen
      h4 hsg h5 h6 h7
    simp [parsePhaseRow, h0, hlc, h1, hla, h2, h3, hn, hg, hlen, h4, hsg, h5, h6, h7]
  · intro idx line t0 t1 t2 t3 lc la n g h0 hlc h1 hla h2 h3 hn hg hlen5 hlen8
    simp [parsePhaseRow, h0, hlc, h1, hla, h2, h3, hn, hg, hlen5, hlen8]

/-- Witness for C3: the three field-count shapes evaluated on concrete
rows with 5, 8 and 6 fields. -/
theorem c3_phase_row_shapes_witness :
    parsePhaseRow 1 "0;0;0\t0;0;0\tA\t1\tcomm" =
      some ⟨1, (mkRat 0 1, mkRat 0 1, mkRat 0 1), (mkRat 0 1, mkRat 0 1, mkRat 0 1),
        "A", .TRICLINIC, 0, "comm", "", ""⟩ ∧
    parsePhaseRow 1 "0;0;0\t0;0;0\tA\t1\t225\ti1\ti2\tcomm" =
      some ⟨1, (mkRat 0 1, mkRat 0 1, mkRat 0 1), (mkRat 0 1, mkRat 0 1, mkRat 0 1),
        "A", .TRICLINIC, 225, "comm", "i1", "i2"⟩ ∧
    parsePhaseRow 1 "0;0;0\t0;0;0\tA\t1\tx\ty" =
      some ⟨1, (mkRat 0 1, mkRat 0 1, mkRat 0 1), (mkRat 0 1, mkRat 0 1, mkRat 0 1),
        "A", .TRICLINIC, 0, "", "", ""⟩ :=
  ⟨c3_phase_row_shapes.1 1 "0;0;0\t0;0;0\tA\t1\tcomm" "0;0;0" "0;0;0" "A" "1" "comm"
      (mkRat 0 1, mkRat 0 1, mkRat 0 1) (mkRat 0 1, mkRat 0 1, mkRat 0 1) 1 .TRICLINIC
      (by decide) (by decide) (by decide) (by decide) (by decide) (by decide) (by decide)
      (by decide) (by decide) (by decide),
   c3_phase_row_shapes.2.1 1 "0;0;0\t0;0;0\tA\t1\t225\ti1\ti2\tcomm" "0;0;0" "0;0;0" "A" "1"
      "225" "i1" "i2" "comm"
      (mkRat 0 1, mkRat 0 1, mkRat 0 1) (mkRat 0 1, mkRat 0 1, mkRat 0 1) 1 225 .TRICLINIC
      (by decide) (by decide) (by decide) (by decide) (by decide) (by decide) (by decide)
      (by decide) (by decide) (by decide) (by decide) (by decide) (by decide) (by decide),
   c3_phase_row_shapes.2.2 1 "0;0;0\t0;0;0\tA\t1\tx\ty" "0;0;0" "0;0;0" "A" "1"
      (mkRat 0 1, mkRat 0 1, mkRat 0 1) (mkRat 0 1, mkRat 0 1, mkRat 0 1) 1 .TRICLINIC
      (by decide) (by decide) (by decide) (by decide) (by decide) (by decide) (by decide)
      (by decide) (by decide) (by decide)⟩

/-! ### Claim C4 -/

/-- Claim C4: in every successfully parsed phase table, the phase stored at
0-based position j carries index j + 1 — the index is assigned purely from
the position in the table, never from any value inside the row. -/
theorem c4_phase_index_positional :
    ∀ (lines : List String) (num_phases : Int) (ps : List CtfPhase) (rest : List String),
      parse_phases lines num_phases = some (ps, rest) →
      ∀ (j : Nat) (p : CtfPhase), ps[j]? = some p → p.index = (j : Int) + 1 := by
  intro lines num_phases ps rest h j p hp
  unfold parse_phases at h
  have := (parsePhasesGo_spec num_phases.toNat lines 0 ps rest h).2 j p hp
  omega

/-- Witness for C4: a two-row table whose rows are full of other
numeric-looking values (225, 11, 90, …) still gets indices 1 and 2 by
position. -/
theorem c4_phase_index_positional_witness :
    parse_phases ["3.52;3.52;3.52\t90;90;90\tNickel\t11\t225\t\t\tFCC Nickel",
        "2.87;2.87;2.87\t90;90;90\tIron\t11\t0\t\t\tBCC Iron"] 2 =
      some ([⟨1, (mkRat 88 25, mkRat 88 25, mkRat 88 25), (mkRat 90 1, mkRat 90 1, mkRat 90 1),
        "Nickel", .CUBIC_HIGH, 225, "FCC Nickel", "", ""⟩,
        ⟨2, (mkRat 287 100, mkRat 287 100, mkRat 287 100), (mkRat 90 1, mkRat 90 1, mkRat 90 1),
        "Iron", .CUBIC_HIGH, 0, "BCC Iron", "", ""⟩], []) ∧
    (⟨1, (mkRat 88 25, mkRat 88 25, mkRat 88 25), (mkRat 90 1, mkRat 90 1, mkRat 90 1),
        "Nickel", .CUBIC_HIGH, 225, "FCC Nickel", "", ""⟩ : CtfPhase).index = (0 : Nat) + 1 ∧
    (⟨2, (mkRat 287 100, mkRat 287 100, mkRat 287 100), (mkRat 90 1, mkRat 90 1, mkRat 90 1),
        "Iron", .CUBIC_HIGH, 0, "BCC Iron", "", ""⟩ : CtfPhase).index = (1 : Nat) + 1 :=
  ⟨by decide,
   c4_phase_index_positional ["3.52;3.52;3.52\t90;90;90\tNickel\t11\t225\t\t\tFCC Nickel",
      "2.87;2.87;2.87\t90;90;90\tIron\t11\t0\t\t\tBCC Iron"] 2
      [⟨1, (mkRat 88 25, mkRat 88 25, mkRat 88 25), (mkRat 90 1, mkRat 90 1, mkRat 90 1),
        "Nickel", .CUBIC_HIGH, 225, "FCC Nickel", "", ""⟩,
       ⟨2, (mkRat 287 100, mkRat 287 100, mkRat 287 100), (mkRat 90 1, mkRat 90 1, mkRat 90 1),
        "Iron", .CUBIC_HIGH, 0, "BCC Iron", "", ""⟩] [] (by decide) 0
      ⟨1, (mkRat 88 25, mkRat 88 25, mkRat 88 25), (mkRat 90 1, mkRat 90 1, mkRat 90 1),
        "Nickel", .CUBIC_HIGH, 225, "FCC Nickel", "", ""⟩ (by decide),
   c4_phase_index_positional ["3.52;3.52;3.52\t90;90;90\tNickel\t11\t225\t\t\tFCC Nickel",
      "2.87;2.87;2.87\t90;90;90\tIron\t11\t0\t\t\tBCC Iron"] 2
      [⟨1, (mkRat 88 25, mkRat 88 25, mkRat 88 25), (mkRat 90 1, mkRat 90 1, mkRat 90 1),
        "Nickel", .CUBIC_HIGH, 225, "FCC Nickel", "", ""⟩,
       ⟨2, (mkRat 287 100, mkRat 287 100, mkRat 287 100), (mkRat 90 1, mkRat 90 1, mkRat 90 1),
        "Iron", .CUBIC_HIGH, 0, "BCC Iron", "", ""⟩] [] (by decide) 1
      ⟨2, (mkRat 287 100, mkRat 287 100, mkRat 287 100), (mkRat 90 1, mkRat 90 1, mkRat 90 1),
        "Iron", .CUBIC_HIGH, 0, "BCC Iron", "", ""⟩ (by decide)⟩

/-! ### Claim C5 -/

/-- Claim C5: the long-text decoder reads the tab tokens at fixed
zero-based offsets 2, 4, 6, 8, 10, 12 as Mag/Coverage/Device (integers),
KV (float truncated to integer), TiltAngle and TiltAxis (floats), and
emits the six entries `SOURCE/Mag`, `SOURCE/Coverage`, `SOURCE/Device`,
`SOURCE/KV`, `SOURCE/TiltAngle`, `SOURCE/TiltAxis` in that order with no
unit and no annotation; with fewer than 13 tokens it always fails.  In the
classifier, a successful decode appends exactly these six entries to
`Header.entries`. -/
theorem c5_long_text_decoder :
    (∀ tokens : List String, tokens.length < 13 → parse_ctf_long_text tokens = none) ∧
    (∀ (tokens : List String) (t2 t4 t6 t8 t10 t12 : String) (mag coverage device : Int)
        (kvFloat tilt_angle tilt_axis : ℚ),
        tokens[2]? = some t2 → pyInt (pyStrip t2) = some mag →
        tokens[4]? = some t4 → pyInt (pyStrip t4) = some coverage →
        tokens[6]? = some t6 → pyInt (pyStrip t6) = some device →
        tokens[8]? = some t8 → pyFloat (pyStrip t8) = some kvFloat →
        tokens[10]? = some t10 → pyFloat (pyStrip t10) = some tilt_angle →
        tokens[12]? = some t12 → pyFloat (pyStrip t12) = some tilt_axis →
        parse_ctf_long_text tokens =
          some [⟨"SOURCE/" ++ CTF_MAG, .vint mag, "", ""⟩,
            ⟨"SOURCE/" ++ CTF_COVERAGE, .vint coverage, "", ""⟩,
            ⟨"SOURCE/" ++ CTF_DEVICE, .vint device, "", ""⟩,
            ⟨"SOURCE/" ++ CTF_KV, .vint (pyTrunc kvFloat), "", ""⟩,
            ⟨"SOURCE/" ++ CTF_TILT_ANGLE, .vfloat tilt_angle, "", ""⟩,
            ⟨"SOURCE/" ++ CTF_TILT_AXIS, .vfloat tilt_axis, "", ""⟩]) ∧
    (∀ (raw : String) (rest : List String) (header : CtfHeader)
        (es : List MetaForgeMetadata),
        pyStartsWith (pyStrip raw) CTF_LONG_TEXT = true →
        parse_ctf_long_text (pySplit CTF_DELIMITER (pyStrip raw)) = some es →
        ctfHeaderLoop (raw :: rest) header =
          ctfHeaderLoop rest { header with entries := header.entries ++ es }) := by
  refine ⟨parse_ctf_long_text_short, ?_, ?_⟩
  · intro tokens t2 t4 t6 t8 t10 t12 mag coverage device kvFloat tilt_angle tilt_axis
      h2 hmag h4 hcov h6 hdev h8 hkv h10 hta h12 htx
    simp [parse_ctf_long_text, h2, hmag, h4, hcov, h6, hdev, h8, hkv, h10, hta, h12, htx]
  · intro raw rest header es hp hparse
    exact ctfHeaderLoop_long_text raw rest header hp es hparse

/-- Witness for C5: a 12-token long-text line fails; a full 13-token line
decodes to the six entries in order; the classifier appends them. -/
theorem c5_long_text_decoder_witness :
    parse_ctf_long_text ["Euler angles refer to Sample Coordinate system (CS0)!", "Mag", "30",
      "Coverage", "2", "Device", "1", "KV", "20.5", "TiltAngle", "70", "TiltAxis"] = none ∧
    parse_ctf_long_text ["Euler angles refer to Sample Coordinate system (CS0)!", "Mag", "30",
      "Coverage", "2", "Device", "1", "KV", "20.5", "TiltAngle", "70", "TiltAxis", "0"] =
      some [⟨"SOURCE/" ++ CTF_MAG, .vint 30, "", ""⟩,
        ⟨"SOURCE/" ++ CTF_COVERAGE, .vint 2, "", ""⟩,
        ⟨"SOURCE/" ++ CTF_DEVICE, .vint 1, "", ""⟩,
        ⟨"SOURCE/" ++ CTF_KV, .vint (pyTrunc (mkRat 41 2)), "", ""⟩,
        ⟨"SOURCE/" ++ CTF_TILT_ANGLE, .vfloat (mkRat 70 1), "", ""⟩,
        ⟨"SOURCE/" ++ CTF_TILT_AXIS, .vfloat (mkRat 0 1), "", ""⟩] ∧
    ctfHeaderLoop
        ["Euler angles refer to Sample Coordinate system (CS0)!\tMag\t30\tCoverage\t2\tDevice\t1\tKV\t20.5\tTiltAngle\t70\tTiltAxis\t0"]
        {} =
      ctfHeaderLoop [] { entries := [⟨"SOURCE/Mag", .vint 30, "", ""⟩,
        ⟨"SOURCE/Coverage", .vint 2, "", ""⟩,
        ⟨"SOURCE/Device", .vint 1, "", ""⟩,
        ⟨"SOURCE/KV", .vint 20, "", ""⟩,
        ⟨"SOURCE/TiltAngle", .vfloat (mkRat 70 1), "", ""⟩,
        ⟨"SOURCE/TiltAxis", .vfloat (mkRat 0 1), "", ""⟩] } :=
  ⟨c5_long_text_decoder.1
      ["Euler angles refer to Sample Coordinate system (CS0)!", "Mag", "30",
        "Coverage", "2", "Device", "1", "KV", "20.5", "TiltAngle", "70", "TiltAxis"]
      (by decide),
   c5_long_text_decoder.2.1
      ["Euler angles refer to Sample Coordinate system (CS0)!", "Mag", "30",
        "Coverage", "2", "Device", "1", "KV", "20.5", "TiltAngle", "70", "TiltAxis", "0"]
      "30" "2" "1" "20.5" "70" "0" 30 2 1 (mkRat 41 2) (mkRat 70 1) (mkRat 0 1)
      (by decide) (by decide) (by decide) (by decide) (by decide) (by decide)
      (by decide) (by decide) (by decide) (by decide) (by decide) (by decide),
   c5_long_text_decoder.2.2
      "Euler angles refer to Sample Coordinate system (CS0)!\tMag\t30\tCoverage\t2\tDevice\t1\tKV\t20.5\tTiltAngle\t70\tTiltAxis\t0"
      [] {}
      [⟨"SOURCE/Mag", .vint 30, "", ""⟩, ⟨"SOURCE/Coverage", .vint 2, "", ""⟩,
        ⟨"SOURCE/Device", .vint 1, "", ""⟩, ⟨"SOURCE/KV", .vint 20, "", ""⟩,
        ⟨"SOURCE/TiltAngle", .vfloat (mkRat 70 1), "", ""⟩,
        ⟨"SOURCE/TiltAxis", .vfloat (mkRat 0 1), "", ""⟩]
      (by decide) (by decide)⟩

/-! ### Claim C6 -/

/-- A code outside 1–12 is rejected by `LaueGroup` construction. -/
theorem ofCode_out_of_range (n : Int) (hn : ¬(1 ≤ n ∧ n ≤ 12)) :
    LaueGroup.ofCode n = none := by
  have h1 : n ≠ 1 := by omega
  have h2 : n ≠ 2 := by omega
  have h3 : n ≠ 3 := by omega
  have h4 : n ≠ 4 := by omega
  have h5 : n ≠ 5 := by omega
  have h6 : n ≠ 6 := by omega
  have h7 : n ≠ 7 := by omega
  have h8 : n ≠ 8 := by omega
  have h9 : n ≠ 9 := by omega
  have h10 : n ≠ 10 := by omega
  have h11 : n ≠ 11 := by omega
  have h12 : n ≠ 12 := by omega
  simp [LaueGroup.ofCode, h1, h2, h3, h4, h5, h6, h7, h8, h9, h10, h11, h12]

/-- A successfully constructed `LaueGroup` came from a code in 1–12. -/
theorem ofCode_bounds (n : Int) (g : LaueGroup) (hg : LaueGroup.ofCode n = some g) :
    1 ≤ n ∧ n ≤ 12 := by
  by_contra hn
  rw [ofCode_out_of_range n hn] at hg
  exact Option.noConfusion hg

/-- Claim C6: `LaueGroup` construction succeeds exactly on the integer
codes 1–12 (each member carrying its own code back), an out-of-range code
is rejected rather than mapped to `UNKNOWN_SYMMETRY`, and a phase row
whose field 3 parses to an out-of-range code makes the whole row parse
fail. -/
theorem c6_laue_group_closed :
    (∀ n : Int, (∃ g, LaueGroup.ofCode n = some g) ↔ 1 ≤ n ∧ n ≤ 12) ∧
    (∀ (n : Int) (g : LaueGroup), LaueGroup.ofCode n = some g → g.code = n) ∧
    (∀ n : Int, ¬(1 ≤ n ∧ n ≤ 12) → LaueGroup.ofCode n = none) ∧
    (∀ (idx : Int) (line t3 : String) (n : Int),
        (pySplit '\t' (pyStrip line))[3]? = some t3 → pyInt t3 = some n →
        LaueGroup.ofCode n = none → parsePhaseRow idx line = none) := by
  refine ⟨?_, ?_, ofCode_out_of_range, ?_⟩
  · intro n
    constructor
    · rintro ⟨g, hg⟩
      exact ofCode_bounds n g hg
    · rintro ⟨hlo, hhi⟩
      interval_cases n <;> exact ⟨_, rfl⟩
  · intro n g hg
    obtain ⟨hlo, hhi⟩ := ofCode_bounds n g hg
    interval_cases n <;> (norm_num [LaueGroup.ofCode] at hg; cases hg; rfl)
  · intro idx line t3' n h3 hn hg
    cases h0 : (pySplit '\t' (pyStrip line))[0]? with
    | none => simp only [parsePhaseRow, h0, Option.none_bind]
    | some t0 =>
      cases hlc : parse_float_triplet (pyStrip t0) with
      | none => simp only [parsePhaseRow, h0, Option.some_bind, hlc, Option.none_bind]
      | some lc =>
        cases h1 : (pySplit '\t' (pyStrip line))[1]? with
        | none => simp only [parsePhaseRow, h0, Option.some_bind, hlc, h1, Option.none_bind]
        | some t1 =>
          cases hla : parse_float_triplet (pyStrip t1) with
          | none =>
            simp only [parsePhaseRow, h0, Option.some_bind, hlc, h1, hla, Option.none_bind]
          | some la =>
            cases h2 : (pySplit '\t' (pyStrip line))[2]? with
            | none =>
              simp only [parsePhaseRow, h0, Option.some_bind, hlc, h1, hla, h2,
                Option.none_bind]
            | some t2 =>
              simp only [parsePhaseRow, h0, Option.some_bind, hlc, h1, hla, h2, h3, hn, hg,
                Option.none_bind]

/-- Witness for C6: code 13 is rejected and aborts a concrete row; code 11
constructs `CUBIC_HIGH`, whose backing code is 11. -/
theorem c6_laue_group_closed_witness :
    parsePhaseRow 1 "0;0;0\t0;0;0\tA\t13" = none ∧
    LaueGroup.ofCode 13 = none ∧
    LaueGroup.code .CUBIC_HIGH = (11 : Int) :=
  ⟨c6_laue_group_closed.2.2.2 1 "0;0;0\t0;0;0\tA\t13" "13" 13
      (by decide) (by decide) (by decide),
   c6_laue_group_closed.2.2.1 13 (by decide),
   c6_laue_group_closed.2.1 11 .CUBIC_HIGH (by decide)⟩

/-! ### Claim C7 -/

/-- Claim C7, counterexample: the line `PrjX<TAB>v` has the unrecognized
first token `PrjX` (it is not in the dispatch table), yet it is captured by
the `"Prj"` prefix rule and lands in `entries` — not in `unknown_entries` —
so "a line whose keyword is unrecognized goes only to `unknown_entries`"
fails as stated. -/
theorem c7_prefix_captures_unknown_keyword :
    _parse_header ["PrjX\tv"] =
      some ⟨[], [⟨"SOURCE/Prj", .vstr "\tv", "", ""⟩], []⟩ ∧
    (CTF_HEADER_PARSE_MAP "PrjX").isNone = true :=
  ⟨by decide, by decide⟩

/-- Claim C7 (amended): for every header line that matches none of the four
prefix rules (signature with or without colon, `"Prj"`, long-text,
`"Phases"`) and whose first tab token is not a recognized keyword, parsing
never aborts: the line is appended only to `unknown_entries`, as key
`SOURCE/<keyword>` with the raw tab-rejoined remainder as a string value,
and `entries` is left untouched. -/
theorem c7_unknown_keyword_bucket :
    ∀ (raw : String) (rest : List String) (header : CtfHeader),
      pyStartsWith (pyStrip raw) CTF_CHANNEL_TEXT_FILE = false →
      pyStartsWith (pyStrip raw) CTF_COLON_CHANNEL_TEXT_FILE = false →
      pyStartsWith (pyStrip raw) CTF_PRJ = false →
      pyStartsWith (pyStrip raw) CTF_LONG_TEXT = false →
      pyStartsWith (pyStrip raw) CTF_PHASES = false →
      CTF_HEADER_PARSE_MAP ((pySplit CTF_DELIMITER (pyStrip raw)).headD "") = none →
      ctfHeaderLoop (raw :: rest) header =
        ctfHeaderLoop rest { header with unknown_entries := header.unknown_entries ++
          [⟨"SOURCE/" ++ (pySplit CTF_DELIMITER (pyStrip raw)).headD "",
            .vstr (pyJoin "\t" (pySplit CTF_DELIMITER (pyStrip raw)).tail), "", ""⟩] } :=
  fun raw rest header h1 h2 h3 h4 h5 h6 =>
    ctfHeaderLoop_unknown raw rest header h1 h2 h3 h4 h5 h6

/-- Witness for C7: the spec's own example line `Mumble<TAB>foo<TAB>bar`
goes only to `unknown_entries` and the pass continues. -/
theorem c7_unknown_keyword_bucket_witness :
    ctfHeaderLoop ["Mumble\tfoo\tbar"] {} =
      ctfHeaderLoop [] { unknown_entries := [⟨"SOURCE/Mumble", .vstr "foo\tbar", "", ""⟩] } :=
  c7_unknown_keyword_bucket "Mumble\tfoo\tbar" [] {}
    (by decide) (by decide) (by decide) (by decide) (by decide) rfl

/-! ### Claim C8 -/

/-- Claim C8: the triplet parser splits the (comma-normalized) text on
semicolons and needs the first three fields: with fewer than 3 fields it
always fails, while any extra trailing fields beyond the third are ignored
and the first three floats form the result. -/
theorem c8_triplet_fields :
    (∀ text : String, (pySplit ';' (euro_to_us_dec_string text)).length < 3 →
        parse_float_triplet text = none) ∧
    (∀ (text f0 f1 f2 : String) (a b c : ℚ),
        (pySplit ';' (euro_to_us_dec_string text))[0]? = some f0 → pyFloat f0 = some a →
        (pySplit ';' (euro_to_us_dec_string text))[1]? = some f1 → pyFloat f1 = some b →
        (pySplit ';' (euro_to_us_dec_string text))[2]? = some f2 → pyFloat f2 = some c →
        parse_float_triplet text = some (a, b, c)) := by
  constructor
  · intro text hlen
    cases hres : parse_float_triplet text with
    | none => rfl
    | some v =>
      exfalso
      rw [parse_float_triplet] at hres
      simp only [Option.bind_eq_some, Option.some.injEq] at hres
      obtain ⟨f0, h0, a, ha, f1, h1, b, hb, f2, h2, c, hc, hv⟩ := hres
      obtain ⟨hlt, -⟩ := List.getElem?_eq_some.1 h2
      omega
  · intro text f0 f1 f2 a b c h0 ha h1 hb h2 hc
    simp only [parse_float_triplet, h0, Option.some_bind, ha, h1, hb, h2, hc]

/-- Witness for C8: `1;2` (two fields) fails; `1;2;3;4` (four fields)
parses to the first three floats, ignoring the fourth. -/
theorem c8_triplet_fields_witness :
    parse_float_triplet "1;2" = none ∧
    parse_float_triplet "1;2;3;4" = some (mkRat 1 1, mkRat 2 1, mkRat 3 1) :=
  ⟨c8_triplet_fields.1 "1;2" (by decide),
   c8_triplet_fields.2 "1;2;3;4" "1" "2" "3" (mkRat 1 1) (mkRat 2 1) (mkRat 3 1)
     (by decide) (by decide) (by decide) (by decide) (by decide) (by decide)⟩

/-! ### Claim C9 -/

/-- Claim C9: `parse_header` returns `Header.entries` followed, for each
phase in table order (ascending index), by exactly eight entries in the
order LaueGroup (symmetry-class name as string), Internal1, Internal2,
LatticeAngles (unit degrees), LatticeConstants (unit angstrom), Name,
SpaceGroup, Comment, each carrying the shared annotation
`"Phase {index}, {class name}"`, where the class name comes from the
external phase-index-to-class-name lookup with fallback `"Unknown"` when
absent; `unknown_entries` does not appear in the returned sequence. -/
theorem c9_emitter_shape :
    ∀ (laueClassMap : Int → Option String) (lines : List String) (header : CtfHeader),
      _parse_header lines = some header →
      parse_header laueClassMap lines =
        some (header.entries ++
          (header.phases.map fun phase =>
            let annotations :=
              "Phase " ++ toString phase.index ++ ", " ++
                (laueClassMap phase.index).getD "Unknown"
            [⟨"SOURCE/Phases/Phase " ++ toString phase.index ++ "/LaueGroup",
              .vstr phase.group.pyName, annotations, ""⟩,
             ⟨"SOURCE/Phases/Phase " ++ toString phase.index ++ "/Internal1",
              .vstr phase.internal1, annotations, ""⟩,
             ⟨"SOURCE/Phases/Phase " ++ toString phase.index ++ "/Internal2",
              .vstr phase.internal2, annotations, ""⟩,
             ⟨"SOURCE/Phases/Phase " ++ toString phase.index ++ "/LatticeAngles",
              .vtriplet phase.lattice_angles, annotations, DEGREES_UNITS⟩,
             ⟨"SOURCE/Phases/Phase " ++ toString phase.index ++ "/LatticeConstants",
              .vtriplet phase.lattice_constants, annotations, ANGSTROM_UNITS⟩,
             ⟨"SOURCE/Phases/Phase " ++ toString phase.index ++ "/Name",
              .vstr phase.name, annotations, ""⟩,
             ⟨"SOURCE/Phases/Phase " ++ toString phase.index ++ "/SpaceGroup",
              .vint phase.space_group, annotations, ""⟩,
             ⟨"SOURCE/Phases/Phase " ++ toString phase.index ++ "/Comment",
              .vstr phase.comment, annotations, ""⟩]).flatten) := by
  intro laueClassMap lines header h
  simp only [parse_header, h]
  rw [foldl_append_join]
  rfl

/-- Witness for C9: emitter output for a parsed one-phase header with an
empty lookup (class name falls back to `"Unknown"`). -/
theorem c9_emitter_shape_witness :
    parse_header (fun _ => none) ["Phases\t1", "0;0;0\t0;0;0\tA\t1"] =
      some [⟨"SOURCE/Phases/Phase 1/LaueGroup", .vstr "TRICLINIC", "Phase 1, Unknown", ""⟩,
        ⟨"SOURCE/Phases/Phase 1/Internal1", .vstr "", "Phase 1, Unknown", ""⟩,
        ⟨"SOURCE/Phases/Phase 1/Internal2", .vstr "", "Phase 1, Unknown", ""⟩,
        ⟨"SOURCE/Phases/Phase 1/LatticeAngles",
          .vtriplet (mkRat 0 1, mkRat 0 1, mkRat 0 1), "Phase 1, Unknown", DEGREES_UNITS⟩,
        ⟨"SOURCE/Phases/Phase 1/LatticeConstants",
          .vtriplet (mkRat 0 1, mkRat 0 1, mkRat 0 1), "Phase 1, Unknown", ANGSTROM_UNITS⟩,
        ⟨"SOURCE/Phases/Phase 1/Name", .vstr "A", "Phase 1, Unknown", ""⟩,
        ⟨"SOURCE/Phases/Phase 1/SpaceGroup", .vint 0, "Phase 1, Unknown", ""⟩,
        ⟨"SOURCE/Phases/Phase 1/Comment", .vstr "", "Phase 1, Unknown", ""⟩] :=
  c9_emitter_shape (fun _ => none) ["Phases\t1", "0;0;0\t0;0;0\tA\t1"]
    ⟨[phaseA], [], []⟩ (by decide)

/-! ### Claim C10 -/

/-- Claim C10: the first classifier rules match by string prefix of the
whole (stripped) line, not by exact first token — every line beginning
with `"Prj"` fires the project rule, and every line beginning with
`"Phases"` fires the phase-count-marker rule and ends the header pass
(storing the parsed table on success, failing on a bad count) — while
dispatch-table lookup requires the first tab token to equal a recognized
keyword exactly (`XStepQ<TAB>1` is not dispatched as `XStep`; it goes to
`unknown_entries`). -/
theorem c10_prefix_dispatch :
    (∀ (raw : String) (rest : List String) (header : CtfHeader),
        pyStartsWith (pyStrip raw) CTF_PRJ = true →
        ctfHeaderLoop (raw :: rest) header =
          ctfHeaderLoop rest { header with entries := header.entries ++
            [⟨"SOURCE/" ++ CTF_PRJ, .vstr (pyDrop (pyStrip raw) (CTF_PRJ.length + 1)),
              "", ""⟩] }) ∧
    (∀ (raw : String) (rest : List String) (header : CtfHeader) (countText : String)
        (phase_num : Int) (phases : List CtfPhase) (remaining : List String),
        pyStartsWith (pyStrip raw) CTF_PHASES = true →
        (pySplit CTF_DELIMITER (pyStrip raw))[1]? = some countText →
        pyInt countText = some phase_num →
        parse_phases rest phase_num = some (phases, remaining) →
        ctfHeaderLoop (raw :: rest) header = some { header with phases := phases }) ∧
    (∀ (raw : String) (rest : List String) (header : CtfHeader),
        pyStartsWith (pyStrip raw) CTF_PHASES = true →
        ((pySplit CTF_DELIMITER (pyStrip raw))[1]?).bind pyInt = none →
        ctfHeaderLoop (raw :: rest) header = none) ∧
    (_parse_header ["XStepQ\t1"] =
        some ⟨[], [], [⟨"SOURCE/XStepQ", .vstr "1", "", ""⟩]⟩ ∧
      (CTF_HEADER_PARSE_MAP "XStepQ").isNone = true ∧
      (CTF_HEADER_PARSE_MAP "XStep").isSome = true) :=
  ⟨ctfHeaderLoop_prj,
   fun raw rest header countText phase_num phases remaining hp ht hn hps =>
     ctfHeaderLoop_phases_some raw rest header countText phase_num phases remaining
       hp ht hn hps,
   fun raw rest header hp hn => ctfHeaderLoop_phases_bad_count raw rest header hp hn,
   by decide, by decide, by decide⟩

/-- Witness for C10: a line whose first token is the longer word `Prjabc`
still fires the project rule; a marker whose first token is the longer
word `PhasesX` still fires the phase rule and consumes the declared row;
a bare `Phases` line (no count token) aborts the parse. -/
theorem c10_prefix_dispatch_witness :
    ctfHeaderLoop ["Prjabc\tv"] {} =
      ctfHeaderLoop [] { entries := [⟨"SOURCE/" ++ CTF_PRJ,
        .vstr (pyDrop (pyStrip "Prjabc\tv") (CTF_PRJ.length + 1)), "", ""⟩] } ∧
    ctfHeaderLoop ["PhasesX\t1", "0;0;0\t0;0;0\tA\t1"] {} = some { phases := [phaseA] } ∧
    ctfHeaderLoop ["Phases"] {} = none :=
  ⟨c10_prefix_dispatch.1 "Prjabc\tv" [] {} (by decide),
   c10_prefix_dispatch.2.1 "PhasesX\t1" ["0;0;0\t0;0;0\tA\t1"] {} "1" 1 [phaseA] []
     (by decide) (by decide) (by decide) (by decide),
   c10_prefix_dispatch.2.2.1 "Phases" [] {} (by decide) (by decide)⟩
